import Mathlib

/-!
Verification of the configurable news-scraper core
(`src/universal_news_scraper.py`, with site configurations from
`src/news_scraper_configs.py`).

The HTML-parsing collaborator (BeautifulSoup), the HTTP collaborator
(requests) and `urllib.parse.urljoin` are external libraries; following
the spec they are modelled as an abstract record of pure operations
(`HtmlOps`) over an abstract node type.  Everything the repository
itself computes — selector resolution (`_find_element`), per-container
article extraction (`_extract_article_from_container`), relative-date
parsing (`_parse_relative_date`), the dedup loop and the surrounding
control flow of `scrape_news` — is translated directly from the Python
source.  Python exceptions raised by the injected `post_process` hook
are modelled with `Except Unit`; the `try/except` blocks of the source
turn them into a discarded article (`none`) or an empty result list,
exactly as the code does.  Wall-clock time (`datetime.datetime.now()`)
and ISO rendering (`.isoformat()`) are modelled by an abstract instant
`now : Int` (seconds) and an abstract rendering function
`iso : Int -> String`; `timedelta(minutes/hours/days = n)` becomes
`n * 60 / n * 3600 / n * 86400` seconds.
-/

/-- Substring machinery modelling Python's `in` operator on strings
(`'minute' in date_text` etc.).  `prefListChars pat l` decides whether
`pat` is a prefix of `l`. -/
def prefListChars : List Char → List Char → Bool
  | [], _ => true
  | _ :: _, [] => false
  | a :: as, b :: bs => a == b && prefListChars as bs

/-- `subListChars pat l` decides whether `pat` occurs contiguously in `l`. -/
def subListChars (pat : List Char) : List Char → Bool
  | [] => prefListChars pat []
  | c :: rest => prefListChars pat (c :: rest) || subListChars pat rest

/-- Python `pat in s` for strings. -/
def strHasSub (s pat : String) : Bool :=
  subListChars pat.toList s.toList

/-- Numeric value of a list of decimal digit characters (`int(...)` on a
digit group). -/
def digitsToNat (cs : List Char) : Nat :=
  cs.foldl (fun acc c => acc * 10 + (c.toNat - 48)) 0

/-- `re.search(r'(\d+)', s)`: the first maximal run of decimal digits in
`s`, as a number; `none` when `s` has no digit. -/
def firstNumber (s : String) : Option Nat :=
  go s.toList
where
  go : List Char → Option Nat
    | [] => none
    | c :: rest =>
      if c.isDigit then some (digitsToNat (c :: rest.takeWhile Char.isDigit))
      else go rest

/-- Python `str.lower()` (ASCII case folding, via `Char.toLower`),
written over the character list so that it reduces in the kernel. -/
def strLower (s : String) : String :=
  String.mk (s.toList.map Char.toLower)

/-- Python `str.strip()`: drop leading and trailing whitespace. -/
def strStrip (s : String) : String :=
  String.mk
    (((s.toList.dropWhile Char.isWhitespace).reverse.dropWhile
        Char.isWhitespace).reverse)

/-- `date_text.lower().strip()` from `_parse_relative_date`. -/
def pyLowerStrip (s : String) : String :=
  strStrip (strLower s)

/-- Python `a or b` on two optional strings (an attribute read returns
`None` or a string; `""` is falsy). Models `get('src') or get('data-src')`. -/
def pyOr (a b : Option String) : Option String :=
  match a with
  | some s => if s = "" then b else some s
  | none => b

/-- First `some` among a list of options (spec §4.1: "first match found
by any; none if all fail"). -/
def firstSome {α : Type} : List (Option α) → Option α
  | [] => none
  | o :: rest =>
    match o with
    | some a => some a
    | none => firstSome rest

/-- The value paired with the `css` key of an advanced selector dict:
the Python code accepts either a single string or a list of strings
(`selector_value if isinstance(selector_value, list) else [selector_value]`). -/
inductive StrOrList where
  | one (s : String)
  | many (ss : List String)
deriving DecidableEq

/-- Normalisation applied by the `css` branch of `_find_element`. -/
def cssVals : StrOrList → List String
  | .one s => [s]
  | .many ss => ss

/-- One entry of an advanced selector dict, keyed by the strategy name
the code recognises (`css`, `tag`, `class`, `attrs`).  Entries keep the
dict's insertion order, which is the iteration order of
`selector_config.items()` in Python 3.7+. -/
inductive DictEntry where
  | css (v : StrOrList)
  | tag (s : String)
  | cls (s : String)
  | attrs (m : List (String × String))
deriving DecidableEq

/-- A selector configuration as accepted by `_find_element`: a plain
string, a list of fallback selectors, or a dict of strategies. -/
inductive SelectorConfig where
  | str (s : String)
  | list (ss : List String)
  | dict (entries : List DictEntry)
deriving DecidableEq

/-- The operations the scraper calls on the external HTML tree
(BeautifulSoup), on `urljoin`, and on the clock; all treated as pure,
per spec §6.  `N` is the abstract node type. -/
structure HtmlOps (N : Type) where
  selectOne : N → String → Option N
  findTag : N → String → Option N
  findClass : N → String → Option N
  findAttrs : N → List (String × String) → Option N
  findParentAnchor : N → Option N
  getText : N → String
  getAttr : N → String → Option String
  tagName : N → String
  urljoin : String → String → String
  iso : Int → String
  now : Int

/-- An extracted article record (the dict built at lines 187–196 of
`universal_news_scraper.py`). -/
structure Article where
  title : String
  link : String
  summary : String
  publish_date : Option String
  category : Option String
  author : Option String
  image_url : Option String
  source : String
deriving DecidableEq

/-- The per-field selector dict `site_config['selectors']`; a field not
present in the dict is `none`. -/
structure Selectors where
  title : Option SelectorConfig := none
  link : Option SelectorConfig := none
  summary : Option SelectorConfig := none
  date : Option SelectorConfig := none
  category : Option SelectorConfig := none
  author : Option SelectorConfig := none
  image : Option SelectorConfig := none

/-- A site configuration (the dict entries of `SITE_CONFIGURATIONS`
that `scrape_news` and `_extract_article_from_container` read).
`remove_duplicates` is optional because the code reads it with
`site_config.get('remove_duplicates', True)`; `timeout` is the
`'timeout'` field every shipped configuration declares; `dateParser`
and `post_process` are the optional injected hooks, the latter
modelled in `Except Unit` so that a raised exception is observable. -/
structure SiteConfig (N : Type) where
  name : String
  url : String
  selectors : Selectors
  remove_duplicates : Option Bool
  timeout : Nat
  dateParser : Option (String → Option String) := none
  post_process : Option (Article → N → Except Unit Article) := none

/-- The inner loop of the string-list case of `_find_element` (also the
loop of the `css` dict branch): try `select_one` for each selector in
order, return the first hit. -/
def trySelectors {N : Type} (ops : HtmlOps N) (container : N) : List String → Option N
  | [] => none
  | s :: rest =>
    match ops.selectOne container s with
    | some e => some e
    | none => trySelectors ops container rest

/-- The dict case of `_find_element` (lines 220–234): iterate the
entries in their dict order; `css` tries its selectors and only falls
through to the next entry when none matches; `tag`, `class` and
`attrs` `return` their `find` result unconditionally, even when it is
`None`. -/
def findInDict {N : Type} (ops : HtmlOps N) (container : N) : List DictEntry → Option N
  | [] => none
  | .css v :: rest =>
    match trySelectors ops container (cssVals v) with
    | some e => some e
    | none => findInDict ops container rest
  | .tag s :: _ => ops.findTag container s
  | .cls s :: _ => ops.findClass container s
  | .attrs m :: _ => ops.findAttrs container m

/-- `UniversalNewsScraper._find_element` (lines 208–234). -/
def find_element {N : Type} (ops : HtmlOps N) (container : N) :
    SelectorConfig → Option N
  | .str s => ops.selectOne container s
  | .list ss => trySelectors ops container ss
  | .dict entries => findInDict ops container entries

/-- `UniversalNewsScraper._parse_relative_date` (lines 236–265),
with the clock abstracted as `now : Int` (seconds) and `isoformat`
as `iso : Int → String`. -/
def parse_relative_date (iso : Int → String) (now : Int) :
    Option String → Option String
  | none => none
  | some raw =>
    if raw = "" then none
    else
      let t := pyLowerStrip raw
      if strHasSub t "minute" || strHasSub t "min" then
        match firstNumber t with
        | some n => some (iso (now - (n : Int) * 60))
        | none => some t
      else if strHasSub t "hour" then
        match firstNumber t with
        | some n => some (iso (now - (n : Int) * 3600))
        | none => some t
      else if strHasSub t "day" then
        match firstNumber t with
        | some n => some (iso (now - (n : Int) * 86400))
        | none => some t
      else if strHasSub t "yesterday" then
        some (iso (now - 86400))
      else if strHasSub t "today" then
        some (iso now)
      else
        some t

/-- The `timeout=20` keyword argument the code passes to
`session.get` at line 56: a constant, independent of the
configuration's `timeout` field. -/
def request_timeout {N : Type} (_cfg : SiteConfig N) : Nat := 20

/-- The title extraction step of `_extract_article_from_container`
(lines 104–112): resolve the `title` selector if configured and take
the stripped text; `""` when the key is absent, the selector resolves
to nothing, or the text strips to empty. -/
def resolve_title {N : Type} (ops : HtmlOps N) (cfg : SiteConfig N)
    (container : N) : String :=
  match cfg.selectors.title with
  | none => ""
  | some sel =>
    match find_element ops container sel with
    | some e => strStrip (ops.getText e)
    | none => ""

/-- The link extraction step (lines 114–129), producing the raw `link`
variable: `""` when no link element with a truthy `href` is found.  In
the `same_as_title` branch the code re-resolves the title element; when
that resolution fails the Python code hits an unbound `link_elem` and
the resulting exception is caught at line 204 yielding `None`, which is
observationally the same as producing no link, so that path is `""`
here. -/
def resolve_link {N : Type} (ops : HtmlOps N) (cfg : SiteConfig N)
    (container : N) : String :=
  match cfg.selectors.link with
  | none => ""
  | some sel =>
    let link_elem : Option N :=
      if sel = SelectorConfig.str "same_as_title" then
        match cfg.selectors.title with
        | some tsel =>
          match find_element ops container tsel with
          | some te =>
            match ops.findParentAnchor te with
            | some pe => some pe
            | none => ops.findTag te "a"
          | none => none
        | none => none
      else
        find_element ops container sel
    match link_elem with
    | some le =>
      match ops.getAttr le "href" with
      | some h => if h = "" then "" else h
      | none => ""
    | none => ""

/-- `UniversalNewsScraper._extract_article_from_container`
(lines 101–206).  Any exception raised by the injected `post_process`
hook is caught by the `except` clause at line 204 and turns into
`none`; the earlier steps are pure in the model. -/
def extract_article_from_container {N : Type} (ops : HtmlOps N)
    (cfg : SiteConfig N) (container : N) : Option Article :=
  let title := resolve_title ops cfg container
  if title = "" then none
  else
    let link := resolve_link ops cfg container
    if link = "" then none
    else
      let full_url := ops.urljoin cfg.url link
      let summary :=
        match cfg.selectors.summary with
        | none => ""
        | some sel =>
          match find_element ops container sel with
          | some e => strStrip (ops.getText e)
          | none => ""
      let publish_date : Option String :=
        match cfg.selectors.date with
        | none => none
        | some sel =>
          match find_element ops container sel with
          | none => none
          | some de =>
            let pd :=
              match ops.getAttr de "datetime" with
              | some s => if s = "" then strStrip (ops.getText de) else s
              | none => strStrip (ops.getText de)
            match cfg.dateParser with
            | some f => f pd
            | none => parse_relative_date ops.iso ops.now (some pd)
      let category : Option String :=
        match cfg.selectors.category with
        | none => none
        | some sel =>
          match find_element ops container sel with
          | some e => some (strStrip (ops.getText e))
          | none => none
      let author : Option String :=
        match cfg.selectors.author with
        | none => none
        | some sel =>
          match find_element ops container sel with
          | some e => some (strStrip (ops.getText e))
          | none => none
      let image_url : Option String :=
        match cfg.selectors.image with
        | none => none
        | some sel =>
          match find_element ops container sel with
          | none => none
          | some e =>
            let raw :=
              if ops.tagName e = "img" then
                pyOr (ops.getAttr e "src") (ops.getAttr e "data-src")
              else
                match ops.findTag e "img" with
                | some img => pyOr (ops.getAttr img "src") (ops.getAttr img "data-src")
                | none => none
            match raw with
            | some u => if u = "" then some "" else some (ops.urljoin cfg.url u)
            | none => none
      let article : Article :=
        { title := title, link := full_url, summary := summary,
          publish_date := publish_date, category := category,
          author := author, image_url := image_url, source := cfg.name }
      match cfg.post_process with
      | some f =>
        match f article container with
        | .ok a2 => some a2
        | .error _ => none
      | none => some article

/-- The container loop of `scrape_news` (lines 73–79): extract from
each container, keeping the truthy results in document order. -/
def extract_all {N : Type} (ops : HtmlOps N) (cfg : SiteConfig N)
    (containers : List N) : List Article :=
  containers.filterMap (extract_article_from_container ops cfg)

/-- The dedup block of `scrape_news` (lines 81–91): fold over the
articles accumulating the set of seen links and the kept list. -/
def remove_duplicate_articles (articles : List Article) : List Article :=
  (articles.foldl
    (fun st article =>
      if article.link ∈ st.1 then st
      else (article.link :: st.1, st.2 ++ [article]))
    (([] : List String), ([] : List Article))).2

/-- `UniversalNewsScraper.scrape_news` (lines 50–99) after the external
fetch/parse/container-selection step, whose outcome is the `fetched`
argument: `Except.error ()` stands for any exception raised before the
container loop (network failure, `raise_for_status`, parse failure),
which the `except` clause at line 97 turns into `[]`. -/
def scrape_news {N : Type} (ops : HtmlOps N) (cfg : SiteConfig N)
    (fetched : Except Unit (List N)) : List Article :=
  match fetched with
  | .error _ => []
  | .ok containers =>
    let articles := extract_all ops cfg containers
    if cfg.remove_duplicates.getD true then remove_duplicate_articles articles
    else articles

example : strHasSub "yesterday" "day" = true := by decide
example : strHasSub "today" "day" = true := by decide
example : firstNumber "2 hours ago" = some 2 := by decide
example : parse_relative_date (fun z => toString z) 0 (some "2 hours ago")
    = some (toString (-7200 : Int)) := by decide

/-- Modelled from the spec: "filter to the first-seen article per
unique `link`, preserving relative order of first occurrences" — keep
the head and recursively keep the first occurrences among the later
articles with a different link.  Used only to be compared against the
code's dedup fold. -/
def keepFirstByLink : List Article → List Article
  | [] => []
  | a :: rest =>
    a :: keepFirstByLink (rest.filter (fun b => decide (b.link ≠ a.link)))
termination_by l => l.length
decreasing_by
  simp only [List.length_cons]
  exact Nat.lt_succ_of_le (List.length_filter_le _ _)

/-- Structural-recursion form of the dedup fold, carrying the set of
already-seen links. -/
def dedupAux (seen : List String) : List Article → List Article
  | [] => []
  | a :: rest =>
    if a.link ∈ seen then dedupAux seen rest
    else a :: dedupAux (a.link :: seen) rest

theorem dedup_foldl_eq_aux (l : List Article) :
    ∀ (seen : List String) (acc : List Article),
      (l.foldl
        (fun st article =>
          if article.link ∈ st.1 then st
          else (article.link :: st.1, st.2 ++ [article]))
        (seen, acc)).2 = acc ++ dedupAux seen l := by
  induction l with
  | nil => intro seen acc; simp [dedupAux]
  | cons a rest ih =>
    intro seen acc
    by_cases h : a.link ∈ seen
    · simp only [List.foldl_cons, if_pos h, dedupAux, ih]
    · simp only [List.foldl_cons, if_neg h, dedupAux, ih, List.append_assoc,
        List.singleton_append]

theorem remove_duplicate_articles_eq_aux (l : List Article) :
    remove_duplicate_articles l = dedupAux [] l := by
  simpa [remove_duplicate_articles] using dedup_foldl_eq_aux l [] []

theorem dedupAux_link_not_seen (l : List Article) :
    ∀ (seen : List String) (b : Article), b ∈ dedupAux seen l →
      b.link ∉ seen := by
  induction l with
  | nil => intro seen b hb; simp [dedupAux] at hb
  | cons a rest ih =>
    intro seen b hb
    by_cases h : a.link ∈ seen
    · rw [dedupAux, if_pos h] at hb
      exact ih seen b hb
    · rw [dedupAux, if_neg h] at hb
      rcases List.mem_cons.mp hb with rfl | hb'
      · exact h
      · have := ih (a.link :: seen) b hb'
        exact fun hc => this (List.mem_cons_of_mem _ hc)

theorem dedupAux_pairwise_ne (l : List Article) :
    ∀ (seen : List String),
      (dedupAux seen l).Pairwise (fun a b => a.link ≠ b.link) := by
  induction l with
  | nil => intro seen; simp [dedupAux]
  | cons a rest ih =>
    intro seen
    by_cases h : a.link ∈ seen
    · rw [dedupAux, if_pos h]; exact ih seen
    · rw [dedupAux, if_neg h]
      refine List.pairwise_cons.mpr ⟨?_, ih (a.link :: seen)⟩
      intro b hb
      have := dedupAux_link_not_seen rest (a.link :: seen) b hb
      exact fun hc => this (hc ▸ List.mem_cons_self _ _)

theorem dedupAux_eq_keepFirst (l : List Article) :
    ∀ (seen : List String),
      dedupAux seen l
        = keepFirstByLink (l.filter (fun a => decide (a.link ∉ seen))) := by
  induction l with
  | nil => intro seen; simp [dedupAux, keepFirstByLink]
  | cons a rest ih =>
    intro seen
    by_cases h : a.link ∈ seen
    · rw [dedupAux, if_pos h, List.filter_cons, if_neg (by simp [h])]
      exact ih seen
    · rw [dedupAux, if_neg h, List.filter_cons, if_pos (by simp [h])]
      simp only [keepFirstByLink]
      rw [List.filter_filter]
      have hpred :
          (rest.filter fun b =>
              decide (b.link ≠ a.link) && decide (b.link ∉ seen))
            = rest.filter (fun b => decide (b.link ∉ a.link :: seen)) := by
        apply List.filter_congr
        intro b _
        by_cases h1 : b.link = a.link
        · simp [h1]
        · by_cases h2 : b.link ∈ seen <;> simp [h1, h2]
      rw [hpred, ih (a.link :: seen)]

theorem remove_duplicate_articles_spec (l : List Article) :
    (remove_duplicate_articles l).Pairwise (fun a b => a.link ≠ b.link)
      ∧ remove_duplicate_articles l = keepFirstByLink l := by
  constructor
  · rw [remove_duplicate_articles_eq_aux]
    exact dedupAux_pairwise_ne l []
  · rw [remove_duplicate_articles_eq_aux, dedupAux_eq_keepFirst l []]
    congr 1
    have : ∀ a : Article, (decide (a.link ∉ ([] : List String))) = true := by
      intro a; simp
    calc l.filter (fun a => decide (a.link ∉ ([] : List String)))
        = l.filter (fun _ => true) := List.filter_congr (fun a _ => this a)
      _ = l := List.filter_true l

theorem trySelectors_eq_firstSome {N : Type} (ops : HtmlOps N) (c : N)
    (ss : List String) :
    trySelectors ops c ss = firstSome (ss.map (ops.selectOne c)) := by
  induction ss with
  | nil => rfl
  | cons s rest ih =>
    simp only [trySelectors, List.map_cons, firstSome]
    cases ops.selectOne c s <;> simp [ih]

theorem trySelectors_eq_none {N : Type} (ops : HtmlOps N) (c : N)
    (ss : List String) (h : ∀ s ∈ ss, ops.selectOne c s = none) :
    trySelectors ops c ss = none := by
  induction ss with
  | nil => rfl
  | cons s rest ih =>
    simp only [trySelectors, h s (List.mem_cons_self _ _)]
    exact ih (fun x hx => h x (List.mem_cons_of_mem _ hx))

theorem resolve_title_no_elem {N : Type} (ops : HtmlOps N) (cfg : SiteConfig N)
    (c : N) (sel : SelectorConfig) (h : cfg.selectors.title = some sel)
    (h2 : find_element ops c sel = none) :
    resolve_title ops cfg c = "" := by
  simp only [resolve_title, h, h2]

theorem resolve_title_empty_text {N : Type} (ops : HtmlOps N)
    (cfg : SiteConfig N) (c : N) (sel : SelectorConfig) (e : N)
    (h : cfg.selectors.title = some sel) (h2 : find_element ops c sel = some e)
    (h3 : strStrip (ops.getText e) = "") :
    resolve_title ops cfg c = "" := by
  simp only [resolve_title, h, h2, h3]

theorem extract_none_of_title_empty {N : Type} (ops : HtmlOps N)
    (cfg : SiteConfig N) (c : N) (ht : resolve_title ops cfg c = "") :
    extract_article_from_container ops cfg c = none := by
  simp [extract_article_from_container, ht]

theorem extract_none_of_link_empty {N : Type} (ops : HtmlOps N)
    (cfg : SiteConfig N) (c : N) (hl : resolve_link ops cfg c = "") :
    extract_article_from_container ops cfg c = none := by
  by_cases ht : resolve_title ops cfg c = ""
  · simp [extract_article_from_container, ht]
  · simp [extract_article_from_container, if_neg ht, hl]

/-- A trivial HTML collaborator over a one-node document where no
selector, tag, class or attribute lookup ever matches; used to
instantiate universally quantified theorems at concrete inputs. -/
def opsUnit : HtmlOps Unit where
  selectOne := fun _ _ => none
  findTag := fun _ _ => none
  findClass := fun _ _ => none
  findAttrs := fun _ _ => none
  findParentAnchor := fun _ => none
  getText := fun _ => ""
  getAttr := fun _ _ => none
  tagName := fun _ => ""
  urljoin := fun _ s => s
  iso := fun _ => ""
  now := 0

/-- Like `opsUnit` but the selector `"h2"` resolves (to the unique
node) and nodes carry the text `"Headline"`; no link resolves. -/
def opsTitleOnly : HtmlOps Unit :=
  { opsUnit with
    selectOne := fun _ s => if s = "h2" then some () else none
    getText := fun _ => "Headline" }

/-- A collaborator over `Nat` nodes where only the CSS selector `"a"`
matches (yielding node `1`) and every `find`-style lookup fails. -/
def opsCssOnly : HtmlOps Nat where
  selectOne := fun _ s => if s = "a" then some 1 else none
  findTag := fun _ _ => none
  findClass := fun _ _ => none
  findAttrs := fun _ _ => none
  findParentAnchor := fun _ => none
  getText := fun _ => ""
  getAttr := fun _ _ => none
  tagName := fun _ => ""
  urljoin := fun _ s => s
  iso := fun _ => ""
  now := 0

/-- A configuration with a title and a link selector and no hooks. -/
def cfgTitleLink : SiteConfig Unit :=
  { name := "site", url := "http://example.com",
    selectors := { title := some (.str "h2"), link := some (.str "a") },
    remove_duplicates := some true, timeout := 20 }

/-- A configuration whose injected post-process hook always raises. -/
def cfgHook : SiteConfig Unit :=
  { name := "site", url := "http://example.com", selectors := {},
    remove_duplicates := some true, timeout := 20,
    post_process := some (fun _ _ => Except.error ()) }

/-- A configuration that omits the `remove_duplicates` key. -/
def cfgNoFlag : SiteConfig Unit :=
  { name := "site", url := "http://example.com", selectors := {},
    remove_duplicates := none, timeout := 20 }

/-- A configuration with `remove_duplicates` explicitly `False`. -/
def cfgOff : SiteConfig Unit :=
  { name := "site", url := "http://example.com", selectors := {},
    remove_duplicates := some false, timeout := 20 }

/-- A configuration declaring a `timeout` of 5 seconds. -/
def cfgTimeout5 : SiteConfig Unit :=
  { name := "site", url := "http://example.com", selectors := {},
    remove_duplicates := some true, timeout := 5 }

/-- C1: with `removeDuplicates` true, the sequence returned by
`scrape_news` contains no two articles with the same `link`; only the
first-seen article per unique link is kept and the relative order of
those first occurrences is the order in which the articles were
extracted (`keepFirstByLink` of the extraction output). -/
theorem claim1_scrape_dedup_first_occurrence {N : Type} (ops : HtmlOps N)
    (cfg : SiteConfig N) (containers : List N)
    (h : cfg.remove_duplicates = some true) :
    (scrape_news ops cfg (Except.ok containers)).Pairwise
        (fun a b => a.link ≠ b.link)
      ∧ scrape_news ops cfg (Except.ok containers)
          = keepFirstByLink (extract_all ops cfg containers) := by
  have hs : scrape_news ops cfg (Except.ok containers)
      = remove_duplicate_articles (extract_all ops cfg containers) := by
    simp [scrape_news, h]
  rw [hs]
  exact ⟨(remove_duplicate_articles_spec _).1,
    (remove_duplicate_articles_spec _).2⟩

theorem claim1_witness :
    (scrape_news opsUnit cfgTitleLink (Except.ok [()])).Pairwise
        (fun a b => a.link ≠ b.link)
      ∧ scrape_news opsUnit cfgTitleLink (Except.ok [()])
          = keepFirstByLink (extract_all opsUnit cfgTitleLink [()]) :=
  claim1_scrape_dedup_first_occurrence opsUnit cfgTitleLink [()] rfl

/-- C2: the extractor discards a container (returns `none`) whenever
the title selector resolves to no element or to empty stripped text,
and whenever the resolved link value is empty — in particular whenever
a non-empty title comes with no resolvable link. -/
theorem claim2_extract_requires_title_and_link {N : Type}
    (ops : HtmlOps N) (cfg : SiteConfig N) (c : N) :
    (∀ sel, cfg.selectors.title = some sel →
        (find_element ops c sel = none
          ∨ ∃ e, find_element ops c sel = some e
              ∧ strStrip (ops.getText e) = "") →
        extract_article_from_container ops cfg c = none)
      ∧ (resolve_link ops cfg c = "" →
          extract_article_from_container ops cfg c = none) := by
  constructor
  · intro sel hsel hcase
    apply extract_none_of_title_empty
    rcases hcase with hnone | ⟨e, he, hempty⟩
    · exact resolve_title_no_elem ops cfg c sel hsel hnone
    · exact resolve_title_empty_text ops cfg c sel e hsel he hempty
  · exact extract_none_of_link_empty ops cfg c

theorem claim2_witness :
    extract_article_from_container opsUnit cfgTitleLink () = none
      ∧ extract_article_from_container opsTitleOnly cfgTitleLink () = none :=
  ⟨(claim2_extract_requires_title_and_link opsUnit cfgTitleLink ()).1
      (.str "h2") rfl (Or.inl rfl),
    (claim2_extract_requires_title_and_link opsTitleOnly cfgTitleLink ()).2 rfl⟩

/-- C3: `scrape_news` is total; an error before the container loop
(fetch failure, non-success status, parse failure) yields `[]`; a
failing container contributes nothing while the others are extracted
unchanged; and a post-process hook that raises makes the extractor
discard just that article. -/
theorem claim3_error_containment {N : Type} (ops : HtmlOps N)
    (cfg : SiteConfig N) :
    scrape_news ops cfg (Except.error ()) = []
      ∧ (∀ (l1 l2 : List N) (c : N),
          extract_article_from_container ops cfg c = none →
          extract_all ops cfg (l1 ++ c :: l2) = extract_all ops cfg (l1 ++ l2))
      ∧ (∀ (f : Article → N → Except Unit Article) (c : N),
          cfg.post_process = some f →
          (∀ a n, f a n = Except.error ()) →
          extract_article_from_container ops cfg c = none) := by
  refine ⟨rfl, ?_, ?_⟩
  · intro l1 l2 c hc
    unfold extract_all
    rw [List.filterMap_append, List.filterMap_append, List.filterMap_cons, hc]
  · intro f c hf hferr
    by_cases ht : resolve_title ops cfg c = ""
    · exact extract_none_of_title_empty ops cfg c ht
    · by_cases hl : resolve_link ops cfg c = ""
      · exact extract_none_of_link_empty ops cfg c hl
      · simp [extract_article_from_container, if_neg ht, if_neg hl, hf, hferr]

theorem claim3_witness :
    scrape_news opsUnit cfgHook (Except.error ()) = []
      ∧ extract_all opsUnit cfgHook ([(), ()] ++ () :: [()])
          = extract_all opsUnit cfgHook ([(), ()] ++ [()])
      ∧ extract_article_from_container opsUnit cfgHook () = none :=
  ⟨(claim3_error_containment opsUnit cfgHook).1,
    (claim3_error_containment opsUnit cfgHook).2.1 [(), ()] [()] () rfl,
    (claim3_error_containment opsUnit cfgHook).2.2
      (fun _ _ => Except.error ()) () rfl (fun _ _ => rfl)⟩

/-- C4 counterexample: the claim says the keyed resolver tries
strategies in the fixed priority order css → tag → class → attrs
regardless of the order the entries appear in the map, falling through
when a strategy yields no match.  With a collaborator where the CSS
selector `"a"` matches node `1` and no tag lookup matches, the map
`[tag "t", css "a"]` yields `none` (the `tag` entry returns its failed
lookup without falling through, and the css entry is never tried),
while reordering the same entries yields `some 1` — so the result does
depend on entry order and the claimed priority/fall-through is false. -/
theorem claim4_counterexample :
    find_element opsCssOnly 0 (.dict [.tag "t", .css (.one "a")]) = none
      ∧ find_element opsCssOnly 0 (.dict [.css (.one "a"), .tag "t"]) = some 1 :=
  ⟨rfl, rfl⟩

/-- C4 amended: the keyed resolver iterates the map entries in their
insertion order; an empty map yields none; a css entry behaves as a
fallback list and falls through to the later entries only when none of
its selectors matches; a tag, class or attrs entry immediately returns
its single lookup result — even when that result is `none` — so no
later entry is tried after it. -/
theorem claim4_keyed_insertion_order {N : Type} (ops : HtmlOps N) (c : N) :
    find_element ops c (.dict []) = none
      ∧ (∀ v rest, (∀ s ∈ cssVals v, ops.selectOne c s = none) →
          find_element ops c (.dict (.css v :: rest))
            = find_element ops c (.dict rest))
      ∧ (∀ v rest e,
          firstSome ((cssVals v).map (ops.selectOne c)) = some e →
          find_element ops c (.dict (.css v :: rest)) = some e)
      ∧ (∀ s rest,
          find_element ops c (.dict (.tag s :: rest)) = ops.findTag c s)
      ∧ (∀ s rest,
          find_element ops c (.dict (.cls s :: rest)) = ops.findClass c s)
      ∧ (∀ m rest,
          find_element ops c (.dict (.attrs m :: rest)) = ops.findAttrs c m) := by
  refine ⟨rfl, ?_, ?_, fun s rest => rfl, fun s rest => rfl, fun m rest => rfl⟩
  · intro v rest hmiss
    simp only [find_element, findInDict, trySelectors_eq_none ops c _ hmiss]
  · intro v rest e he
    rw [← trySelectors_eq_firstSome] at he
    simp only [find_element, findInDict, he]

theorem claim4_witness :
    find_element opsCssOnly 0 (.dict [.css (.one "x"), .tag "t"])
        = find_element opsCssOnly 0 (.dict [.tag "t"])
      ∧ find_element opsCssOnly 0 (.dict [.css (.one "a"), .attrs []]) = some 1 :=
  ⟨(claim4_keyed_insertion_order opsCssOnly 0).2.1 (.one "x") [.tag "t"]
      (by intro s hs; simp [cssVals] at hs; simp [hs, opsCssOnly]),
    (claim4_keyed_insertion_order opsCssOnly 0).2.2.1 (.one "a") [.attrs []] 1 rfl⟩

/-- C5: the fallback-list resolver returns none on the empty list, and
on `[s1, …, sn]` returns the first non-none among the simple
resolutions of `s1, …, sn` in order, none when all fail. -/
theorem claim5_fallback_first_non_none {N : Type} (ops : HtmlOps N) (c : N)
    (ss : List String) :
    find_element ops c (.list []) = none
      ∧ find_element ops c (.list ss)
          = firstSome (ss.map (fun s => find_element ops c (.str s)))
      ∧ ((∀ s ∈ ss, find_element ops c (.str s) = none) →
          find_element ops c (.list ss) = none) := by
  refine ⟨rfl, trySelectors_eq_firstSome ops c ss, ?_⟩
  intro h
  exact trySelectors_eq_none ops c ss h

theorem claim5_witness :
    (∀ s ∈ ["x", "y"], find_element opsCssOnly 0 (.str s) = none)
      ∧ find_element opsCssOnly 0 (.list ["x", "y"]) = none :=
  ⟨by decide,
    (claim5_fallback_first_non_none opsCssOnly 0 ["x", "y"]).2.2 (by decide)⟩

/-- C6: the spec says `"yesterday"` maps to now minus one day and
`"today"` to now.  In the code the `'day' in date_text` branch fires
first for both inputs (both contain the substring `day`), finds no
digits and falls through to the passthrough return, so both literals
come back unchanged for every clock; the dedicated
yesterday/today branches at lines 260–263 are unreachable. -/
theorem claim6_yesterday_today_dead_code (iso : Int → String) (now : Int) :
    parse_relative_date iso now (some "yesterday") = some "yesterday"
      ∧ parse_relative_date iso now (some "today") = some "today" :=
  ⟨rfl, rfl⟩

/-- C7 counterexample: the claim says unrecognized text is returned
as the original, pre-lowercased input; the code returns the lowercased
trimmed text: `"GARBAGE TEXT"` comes back as `"garbage text"`. -/
theorem claim7_counterexample :
    parse_relative_date (fun _ => "") 0 (some "GARBAGE TEXT")
        = some "garbage text"
      ∧ ("garbage text" : String) ≠ "GARBAGE TEXT" :=
  ⟨by decide, by decide⟩

/-- C7 amended: for every non-empty input whose lowercased trimmed
text contains none of the recognized substrings (minute, min, hour,
day, yesterday, today), the normalizer returns the lowercased,
whitespace-trimmed text — not the original pre-lowercased input. -/
theorem claim7_passthrough_lowercased (iso : Int → String) (now : Int)
    (raw : String) (h0 : raw ≠ "")
    (h1 : strHasSub (pyLowerStrip raw) "minute" = false)
    (h2 : strHasSub (pyLowerStrip raw) "min" = false)
    (h3 : strHasSub (pyLowerStrip raw) "hour" = false)
    (h4 : strHasSub (pyLowerStrip raw) "day" = false)
    (h5 : strHasSub (pyLowerStrip raw) "yesterday" = false)
    (h6 : strHasSub (pyLowerStrip raw) "today" = false) :
    parse_relative_date iso now (some raw) = some (pyLowerStrip raw) := by
  simp [parse_relative_date, if_neg h0, h1, h2, h3, h4, h5, h6]

theorem claim7_witness :
    parse_relative_date (fun _ => "") 0 (some "Some Gibberish")
      = some (pyLowerStrip "Some Gibberish") :=
  claim7_passthrough_lowercased (fun _ => "") 0 "Some Gibberish"
    (by decide) (by decide) (by decide) (by decide) (by decide)
    (by decide) (by decide)

/-- C8: the claim says the fetch uses the configuration's timeout
field.  The code passes the literal `timeout=20` to `session.get`, so
a configuration declaring `timeout = 5` is still fetched with 20. -/
theorem claim8_timeout_hardcoded :
    request_timeout cfgTimeout5 = 20 ∧ cfgTimeout5.timeout = 5 :=
  ⟨rfl, rfl⟩

/-- C9 counterexample: the claim says `"<N> hr(s) ago"` maps to now
minus N hours; the code only recognizes the substring `hour`, so
`"2 hrs ago"` passes through unchanged instead of becoming the
rendered timestamp. -/
theorem claim9_counterexample :
    parse_relative_date (fun z => String.append "T" (toString z)) 0
        (some "2 hrs ago") = some "2 hrs ago"
      ∧ some "2 hrs ago"
          ≠ some (String.append "T" (toString (0 - (2 : Int) * 3600))) :=
  ⟨rfl, by decide⟩

/-- C9 amended: inputs whose lowercased trimmed text contains `hour`
(and no minute pattern) with first digit-run N map to now minus N
hours; the `hr(s)` phrasing is not recognized (see the
counterexample) and passes through unchanged. -/
theorem claim9_hours_phrase_only (iso : Int → String) (now : Int)
    (raw : String) (n : Nat) (h0 : raw ≠ "")
    (h1 : strHasSub (pyLowerStrip raw) "minute" = false)
    (h2 : strHasSub (pyLowerStrip raw) "min" = false)
    (h3 : strHasSub (pyLowerStrip raw) "hour" = true)
    (h4 : firstNumber (pyLowerStrip raw) = some n) :
    parse_relative_date iso now (some raw)
      = some (iso (now - (n : Int) * 3600)) := by
  simp [parse_relative_date, if_neg h0, h1, h2, h3, h4]

theorem claim9_witness :
    parse_relative_date (fun z => toString z) 0 (some "5 hours ago")
      = some (toString (0 - ((5 : Nat) : Int) * 3600)) :=
  claim9_hours_phrase_only (fun z => toString z) 0 "5 hours ago" 5
    (by decide) (by decide) (by decide) (by decide) (by decide)

/-- C10: `remove_duplicates` is read with default `True`: a
configuration without the key behaves exactly like one with the flag
set, and dedup is skipped only when the flag is explicitly false. -/
theorem claim10_dedup_default_true {N : Type} (ops : HtmlOps N)
    (cfg : SiteConfig N) (containers : List N) :
    (cfg.remove_duplicates = none →
        scrape_news ops cfg (Except.ok containers)
          = remove_duplicate_articles (extract_all ops cfg containers))
      ∧ (cfg.remove_duplicates = some false →
          scrape_news ops cfg (Except.ok containers)
            = extract_all ops cfg containers) := by
  constructor
  · intro h
    simp [scrape_news, h]
  · intro h
    simp [scrape_news, h]

theorem claim10_witness :
    scrape_news opsUnit cfgNoFlag (Except.ok [()])
        = remove_duplicate_articles (extract_all opsUnit cfgNoFlag [()])
      ∧ scrape_news opsUnit cfgOff (Except.ok [()])
          = extract_all opsUnit cfgOff [()] :=
  ⟨(claim10_dedup_default_true opsUnit cfgNoFlag [()]).1 rfl,
    (claim10_dedup_default_true opsUnit cfgOff [()]).2 rfl⟩
